import Mathlib

/-!
Shallow embedding of the Xidi plugin discovery/loading subsystem and the
physical-controller backend data model, translated from the C++ sources:
  - Include/Xidi/PhysicalControllerTypes.h
  - Include/Xidi/PluginTypes.h and Include/Xidi/Plugin.h
  - Source/PhysicalControllerBackendXInput.cpp
  - Source/PluginRegistry.cpp
Wide strings are modelled as Lean `String`/`List Char`; machine words are
modelled as `Nat`/`Int` with explicit masking where overflow matters.
-/

namespace Xidi

/-! ## String utilities

Models the character-level operations the C++ code relies on: `wcsstr`
substring search (case-sensitive) and the case-insensitive key comparison of
`Infra::Strings::CaseInsensitiveLessThanComparator<wchar_t>`, whose documented
behaviour is to compare two strings after folding character case. Case folding
is modelled on the ASCII range, which covers every name appearing in the code.
-/

/-- Case-folds one character: an ASCII uppercase letter becomes its lowercase
counterpart, every other character is unchanged (models `towlower` on the
relevant range). -/
def towlower (c : Char) : Char :=
  if 'A' ≤ c ∧ c ≤ 'Z' then Char.ofNat (c.toNat + 32) else c

/-- Case-folds a string, character by character. Two strings compare equal
under the case-insensitive comparator exactly when their folds are equal. -/
def caseFold (s : String) : List Char :=
  s.data.map towlower

/-- Tests whether the second list occurs at the very start of the first
(character-exact). -/
def listStartsWith : List Char → List Char → Bool
  | _, [] => true
  | [], _ :: _ => false
  | c :: cs, p :: ps => c == p && listStartsWith cs ps

/-- Tests whether the second list occurs contiguously anywhere inside the
first (character-exact); models `wcsstr(s, pat) != nullptr`. -/
def listContainsSub : List Char → List Char → Bool
  | [], p => listStartsWith [] p
  | c :: cs, p => listStartsWith (c :: cs) p || listContainsSub cs p

/-- Specification-side occurrence predicate: `pat` occurs contiguously inside
`s`, expressed as an explicit split. -/
def OccursIn (pat s : List Char) : Prop :=
  ∃ l1 l2, s = l1 ++ pat ++ l2

/-! ## Physical controller data model (PhysicalControllerTypes.h) -/

/-- Enumerates possible statuses for physical controller devices
(`EPhysicalDeviceStatus`). The C++ `Count` sentinel is not a value of the
type; it only sizes arrays and never appears as data. -/
inductive EPhysicalDeviceStatus where
  | Ok
  | NotConnected
  | Error
deriving DecidableEq, Repr

/-- Enumerates all analog sticks that might be present (`EPhysicalStick`). -/
inductive EPhysicalStick where
  | LeftX
  | LeftY
  | RightX
  | RightY
deriving DecidableEq, Repr, Fintype

/-- Numeric value of an `EPhysicalStick` enumerator. -/
def EPhysicalStick.toIndex : EPhysicalStick → Nat
  | .LeftX => 0
  | .LeftY => 1
  | .RightX => 2
  | .RightY => 3

/-- Number of `EPhysicalStick` enumerators (`EPhysicalStick::Count`). -/
def kPhysicalStickCount : Nat := 4

/-- Enumerates all analog triggers that might be present (`EPhysicalTrigger`). -/
inductive EPhysicalTrigger where
  | LT
  | RT
deriving DecidableEq, Repr, Fintype

/-- Numeric value of an `EPhysicalTrigger` enumerator. -/
def EPhysicalTrigger.toIndex : EPhysicalTrigger → Nat
  | .LT => 0
  | .RT => 1

/-- Number of `EPhysicalTrigger` enumerators (`EPhysicalTrigger::Count`). -/
def kPhysicalTriggerCount : Nat := 2

/-- Enumerates all digital buttons that might be present (`EPhysicalButton`);
the enumerator order matches the XInput bit layout, with `UnusedGuide` and
`UnusedShare` allocated speculatively at positions 10 and 11. -/
inductive EPhysicalButton where
  | DpadUp
  | DpadDown
  | DpadLeft
  | DpadRight
  | Start
  | Back
  | LS
  | RS
  | LB
  | RB
  | UnusedGuide
  | UnusedShare
  | A
  | B
  | X
  | Y
deriving DecidableEq, Repr, Fintype

/-- Numeric value of an `EPhysicalButton` enumerator (its bit position). -/
def EPhysicalButton.toIndex : EPhysicalButton → Nat
  | .DpadUp => 0
  | .DpadDown => 1
  | .DpadLeft => 2
  | .DpadRight => 3
  | .Start => 4
  | .Back => 5
  | .LS => 6
  | .RS => 7
  | .LB => 8
  | .RB => 9
  | .UnusedGuide => 10
  | .UnusedShare => 11
  | .A => 12
  | .B => 13
  | .X => 14
  | .Y => 15

/-- Number of `EPhysicalButton` enumerators (`EPhysicalButton::Count`). -/
def kPhysicalButtonCount : Nat := 16

/-- Enumerates the force feedback actuators (`EForceFeedbackActuator`). -/
inductive EForceFeedbackActuator where
  | LeftMotor
  | RightMotor
  | LeftImpulseTrigger
  | RightImpulseTrigger
deriving DecidableEq, Repr, Fintype

/-- Numeric value of an `EForceFeedbackActuator` enumerator. -/
def EForceFeedbackActuator.toIndex : EForceFeedbackActuator → Nat
  | .LeftMotor => 0
  | .RightMotor => 1
  | .LeftImpulseTrigger => 2
  | .RightImpulseTrigger => 3

/-- Number of `EForceFeedbackActuator` enumerators. -/
def kForceFeedbackActuatorCount : Nat := 4

/-- Physical controller capabilities (`SPhysicalCapabilities`): four
independent bit-sets, each modelled as the numeric value of the underlying
`std::bitset` (a `Nat` whose bit `i` is member `i`). -/
structure SPhysicalCapabilities where
  stick : Nat
  trigger : Nat
  button : Nat
  forceFeedbackActuator : Nat
deriving DecidableEq, Repr

/-- Writes one bit of a bitset word, as `std::bitset::reference` assignment
does: sets the bit when the value is true, clears it when false. `size` is the
bitset's fixed size, bounding the complement mask. -/
def bitsetAssign (size w i : Nat) (v : Bool) : Nat :=
  if v then w ||| (1 <<< i) else w &&& ((2 ^ size - 1) ^^^ (1 <<< i))

/-- Const `operator[]` taking an `EPhysicalStick`: reads the stick bit. -/
def SPhysicalCapabilities.getStick (c : SPhysicalCapabilities) (s : EPhysicalStick) : Bool :=
  c.stick.testBit s.toIndex

/-- Const `operator[]` taking an `EPhysicalTrigger`: reads the trigger bit. -/
def SPhysicalCapabilities.getTrigger (c : SPhysicalCapabilities) (t : EPhysicalTrigger) : Bool :=
  c.trigger.testBit t.toIndex

/-- Const `operator[]` taking an `EPhysicalButton`: reads the button bit. -/
def SPhysicalCapabilities.getButton (c : SPhysicalCapabilities) (b : EPhysicalButton) : Bool :=
  c.button.testBit b.toIndex

/-- Const `operator[]` taking an `EForceFeedbackActuator`: reads the actuator
bit. -/
def SPhysicalCapabilities.getActuator
    (c : SPhysicalCapabilities) (a : EForceFeedbackActuator) : Bool :=
  c.forceFeedbackActuator.testBit a.toIndex

/-- Non-const `operator[]` taking an `EPhysicalStick` followed by assignment
through the returned reference. -/
def SPhysicalCapabilities.setStick
    (c : SPhysicalCapabilities) (s : EPhysicalStick) (v : Bool) : SPhysicalCapabilities :=
  { c with stick := bitsetAssign kPhysicalStickCount c.stick s.toIndex v }

/-- Non-const `operator[]` taking an `EPhysicalTrigger` followed by assignment
through the returned reference. -/
def SPhysicalCapabilities.setTrigger
    (c : SPhysicalCapabilities) (t : EPhysicalTrigger) (v : Bool) : SPhysicalCapabilities :=
  { c with trigger := bitsetAssign kPhysicalTriggerCount c.trigger t.toIndex v }

/-- Non-const `operator[]` taking an `EPhysicalButton` followed by assignment
through the returned reference. -/
def SPhysicalCapabilities.setButton
    (c : SPhysicalCapabilities) (b : EPhysicalButton) (v : Bool) : SPhysicalCapabilities :=
  { c with button := bitsetAssign kPhysicalButtonCount c.button b.toIndex v }

/-- Non-const `operator[]` taking an `EForceFeedbackActuator` followed by
assignment through the returned reference. -/
def SPhysicalCapabilities.setActuator
    (c : SPhysicalCapabilities) (a : EForceFeedbackActuator) (v : Bool) : SPhysicalCapabilities :=
  { c with forceFeedbackActuator :=
      bitsetAssign kForceFeedbackActuatorCount c.forceFeedbackActuator a.toIndex v }

/-- The all-false capabilities value (value-initialized `SPhysicalCapabilities`). -/
def emptyCapabilities : SPhysicalCapabilities :=
  { stick := 0, trigger := 0, button := 0, forceFeedbackActuator := 0 }

/-- Physical controller state snapshot (`SPhysicalState`): device status, four
signed 16-bit stick values (as `Int`), two unsigned 8-bit trigger values (as
`Nat`), and the 16-bit button bitset (as the numeric word value). -/
structure SPhysicalState where
  deviceStatus : EPhysicalDeviceStatus
  stick : List Int
  trigger : List Nat
  button : Nat
deriving DecidableEq, Repr

/-- Force feedback state (`SForceFeedbackState`): four 16-bit magnitudes. -/
structure SForceFeedbackState where
  leftMotor : Nat
  rightMotor : Nat
  leftImpulseTrigger : Nat
  rightImpulseTrigger : Nat
deriving DecidableEq, Repr

/-! ## XInput vendor API surface (ImportApiXInput.h, xinput.h)

The vendor call itself is external; its observable outcome — the returned
`DWORD` result code together with the `XINPUT_STATE` snapshot it filled in —
is passed to the embedded backend functions explicitly.
-/

/-- The Windows `ERROR_SUCCESS` result code. -/
def ERROR_SUCCESS : Nat := 0

/-- The Windows `ERROR_DEVICE_NOT_CONNECTED` result code (1167). -/
def ERROR_DEVICE_NOT_CONNECTED : Nat := 1167

/-- The `XINPUT_GAMEPAD` structure: button word, two triggers, four thumbstick
axes. -/
structure XINPUT_GAMEPAD where
  wButtons : Nat
  bLeftTrigger : Nat
  bRightTrigger : Nat
  sThumbLX : Int
  sThumbLY : Int
  sThumbRX : Int
  sThumbRY : Int
deriving DecidableEq, Repr

/-- The `XINPUT_STATE` structure: packet number plus gamepad snapshot. -/
structure XINPUT_STATE where
  dwPacketNumber : Nat
  Gamepad : XINPUT_GAMEPAD
deriving DecidableEq, Repr

/-- The `XINPUT_VIBRATION` structure: left and right motor speeds. -/
structure XINPUT_VIBRATION where
  wLeftMotorSpeed : Nat
  wRightMotorSpeed : Nat
deriving DecidableEq, Repr

/-! ## Reference XInput backend (PhysicalControllerBackendXInput.cpp) -/

/-- The `kUnusedButtonMask` constant from
`PhysicalControllerBackendXInput::ReadInputState`: the 16-bit complement of
the Guide and Share bit positions. -/
def kUnusedButtonMask : Nat :=
  (2 ^ 16 - 1) ^^^
    ((1 <<< EPhysicalButton.UnusedGuide.toIndex) ||| (1 <<< EPhysicalButton.UnusedShare.toIndex))

/-- Body of `PhysicalControllerBackendXInput::ReadInputState`, as a function
of the vendor call's outcome: the `XInputGetState` result code and the state
snapshot it produced. The C++ designated initializers value-initialize every
unmentioned field to zero. -/
def readInputState (xinputGetStateResult : Nat) (xinputState : XINPUT_STATE) : SPhysicalState :=
  if xinputGetStateResult = ERROR_SUCCESS then
    { deviceStatus := .Ok,
      stick := [xinputState.Gamepad.sThumbLX, xinputState.Gamepad.sThumbLY,
                xinputState.Gamepad.sThumbRX, xinputState.Gamepad.sThumbRY],
      trigger := [xinputState.Gamepad.bLeftTrigger, xinputState.Gamepad.bRightTrigger],
      button := xinputState.Gamepad.wButtons &&& kUnusedButtonMask }
  else if xinputGetStateResult = ERROR_DEVICE_NOT_CONNECTED then
    { deviceStatus := .NotConnected, stick := [0, 0, 0, 0], trigger := [0, 0], button := 0 }
  else
    { deviceStatus := .Error, stick := [0, 0, 0, 0], trigger := [0, 0], button := 0 }

/-- Body of `PhysicalControllerBackendXInput::SupportsControllerByGuidAndPath`:
two case-sensitive `wcsstr` searches, one for the all-uppercase marker and one
for the all-lowercase marker. -/
def supportsControllerByGuidAndPath (guidAndPath : String) : Bool :=
  listContainsSub guidAndPath.data "&IG_".data || listContainsSub guidAndPath.data "&ig_".data

/-- Specification-side reading of the identity test: the identity string
contains the marker substring under case-insensitive comparison. Defined from
the spec's words, to be compared against the code's
`supportsControllerByGuidAndPath`. -/
def containsMarkerCaseInsensitive (guidAndPath : String) : Bool :=
  listContainsSub (guidAndPath.data.map towlower) ("&IG_".data.map towlower)

/-- Body of `PhysicalControllerBackendXInput::WriteForceFeedbackState`, as a
function of the vendor `XInputSetState` behaviour (given explicitly as the
result code for each issued call). Returns the boolean result together with
the `XINPUT_VIBRATION` value actually sent to the vendor, which is built from
the left and right motor fields only. -/
def writeForceFeedbackState (xinputSetState : Nat → XINPUT_VIBRATION → Nat)
    (physicalControllerIndex : Nat) (vibrationState : SForceFeedbackState) :
    Bool × XINPUT_VIBRATION :=
  let xinputVibration : XINPUT_VIBRATION :=
    { wLeftMotorSpeed := vibrationState.leftMotor,
      wRightMotorSpeed := vibrationState.rightMotor }
  (decide (ERROR_SUCCESS = xinputSetState physicalControllerIndex xinputVibration),
    xinputVibration)

/-! ## Plugin type system and registry (PluginTypes.h, PluginRegistry.cpp)

An `IPlugin` interface pointer arriving across the module ABI carries a
plugin-type tag whose numeric value is not constrained to the enumeration, so
the tag is modelled as a raw `Nat`; the registry checks it against the
`EPluginType::Count` sentinel before use. The interface pointer's identity is
modelled by a `Nat` id.
-/

/-- Enumerates all supported plugin types (`EPluginType`), without the `Count`
sentinel. -/
inductive EPluginType where
  | PhysicalControllerBackend
deriving DecidableEq, Repr

/-- Numeric value of an `EPluginType` enumerator. -/
def EPluginType.toIndex : EPluginType → Nat
  | .PhysicalControllerBackend => 0

/-- Numeric value of the `EPluginType::Count` sentinel: the number of
recognized plugin types. -/
def kPluginTypeCount : Nat := 1

/-- A loaded plugin interface (`IPlugin*`): its declared type tag (raw numeric
value as returned across the ABI), its declared name, and the identity of the
underlying pointer. -/
structure IPlugin where
  pluginType : Nat
  pluginName : String
  ptrId : Nat
deriving DecidableEq, Repr

/-- One per-type name table (`TPluginNameToInterfaceMap`): a `std::map` keyed
by case-insensitive name, modelled by its entry list with case-folded-key
lookup. Keys are pairwise inequivalent for every table the registry builds. -/
abbrev TPluginNameToInterfaceMap : Type := List (String × IPlugin)

/-- Membership test under the case-insensitive key comparison: does the map
already bind a name equivalent to `name`? -/
def mapContains (m : TPluginNameToInterfaceMap) (name : String) : Bool :=
  m.any (fun kv => caseFold kv.1 == caseFold name)

/-- The map's `find` under the case-insensitive key comparison, returning the
stored interface pointer when a bound name is equivalent to `name`. -/
def mapFind (m : TPluginNameToInterfaceMap) (name : String) : Option IPlugin :=
  (m.find? (fun kv => caseFold kv.1 == caseFold name)).map (fun kv => kv.2)

/-- The map's `emplace`: inserts the binding only when no equivalent key is
already bound, and reports through the boolean whether insertion took place.
On a collision the map is returned unchanged. -/
def mapEmplace (m : TPluginNameToInterfaceMap) (name : String) (p : IPlugin) :
    TPluginNameToInterfaceMap × Bool :=
  if mapContains m name then (m, false) else (m ++ [(name, p)], true)

/-- The registry's mutable state: `loadedPluginsByTypeAndName`, an array of
`EPluginType::Count` name tables indexed by numeric plugin type. -/
structure RegistryState where
  tables : List TPluginNameToInterfaceMap
deriving DecidableEq

/-- The registry at process start: every per-type table exists and is empty. -/
def initialRegistry : RegistryState :=
  { tables := List.replicate kPluginTypeCount [] }

/-- Reads the name table for a numeric plugin type. -/
def tableAt (r : RegistryState) (t : Nat) : TPluginNameToInterfaceMap :=
  (r.tables.get? t).getD []

/-- The registration step inside `LoadSinglePlugin`: an `emplace` of the
plugin's declared name into the table selected by its declared type. Called
only after the type tag passed the `< EPluginType::Count` check. -/
def registerPlugin (r : RegistryState) (p : IPlugin) : RegistryState × Bool :=
  let t := tableAt r p.pluginType
  if mapContains t p.pluginName then (r, false)
  else ({ tables := r.tables.set p.pluginType (t ++ [(p.pluginName, p)]) }, true)

/-- One informational log outcome emitted during plugin loading
(Infra::Message calls in PluginRegistry.cpp), tagged with the data that
distinguishes the outcomes. -/
inductive ELogEvent where
  | moduleLoadFailure (filename : String)
  | missingEntryPoint (filename : String)
  | moduleUnloaded (filename : String)
  | moduleLoaded (filename : String)
  | nullInterfaceAtIndex (i : Nat)
  | unrecognizedPluginType (i : Nat)
  | registered (i : Nat) (name : String)
  | nameCollision (i : Nat) (name : String)
deriving DecidableEq, Repr

/-- What the loader observes of one module file: `LoadLibraryW` fails, one of
the two required entry points is missing, or the module loads and its
get-interface entry point yields the listed results for indices `0` through
`count - 1` (with `none` modelling a null result). -/
inductive ModuleOutcome where
  | loadFailure
  | missingGetCount
  | missingGetInterface
  | loaded (interfaces : List (Option IPlugin))
deriving DecidableEq, Repr

/-- The body of `LoadSinglePlugin`'s enumeration loop for one index: a null
interface and an unrecognized type tag are skipped with the registry
untouched; otherwise registration is attempted and its outcome logged. -/
def processInterface (r : RegistryState) (i : Nat) (opt : Option IPlugin) :
    RegistryState × ELogEvent :=
  match opt with
  | none => (r, .nullInterfaceAtIndex i)
  | some p =>
      if kPluginTypeCount ≤ p.pluginType then (r, .unrecognizedPluginType i)
      else
        let (r1, ok) := registerPlugin r p
        (r1, if ok then .registered i p.pluginName else .nameCollision i p.pluginName)

/-- The enumeration loop of `LoadSinglePlugin`: processes the interface at
each successive index, threading the registry and collecting the log. -/
def processAll (r : RegistryState) (i : Nat) :
    List (Option IPlugin) → RegistryState × List ELogEvent
  | [] => (r, [])
  | opt :: rest =>
      let (r1, e) := processInterface r i opt
      let (r2, es) := processAll r1 (i + 1) rest
      (r2, e :: es)

/-- `LoadSinglePlugin(filename)`: load failure and missing entry points are
logged and skip the module (the module is unloaded via `FreeLibrary` in the
missing-entry-point cases); a loaded module is enumerated index by index. -/
def loadSinglePlugin (env : String → ModuleOutcome) (filename : String) (r : RegistryState) :
    RegistryState × List ELogEvent :=
  match env filename with
  | .loadFailure => (r, [.moduleLoadFailure filename])
  | .missingGetCount => (r, [.missingEntryPoint filename, .moduleUnloaded filename])
  | .missingGetInterface => (r, [.missingEntryPoint filename, .moduleUnloaded filename])
  | .loaded interfaces =>
      let (r1, es) := processAll r 0 interfaces
      (r1, .moduleLoaded filename :: es)

/-- The loading pass over the configured plugin filename list, in order, each
module's outcome independent of the others (`LoadConfiguredPlugins`'s
`call_once` body). -/
def loadAll (env : String → ModuleOutcome) :
    List String → RegistryState → RegistryState × List ELogEvent
  | [], r => (r, [])
  | f :: fs, r =>
      let (r1, es) := loadSinglePlugin env f r
      let (r2, es2) := loadAll env fs r1
      (r2, es ++ es2)

/-- The process-wide state relevant to `LoadConfiguredPlugins`: the registry,
the two static guards (`isInitialized`, which the code never sets, and the
`std::once_flag`, modelled by whether its callable has run), and the emitted
log. -/
structure GlobalState where
  registry : RegistryState
  isInitialized : Bool
  onceDone : Bool
  log : List ELogEvent
deriving DecidableEq

/-- The process state at start: fresh registry, both guards unset, empty log. -/
def initialGlobalState : GlobalState :=
  { registry := initialRegistry, isInitialized := false, onceDone := false, log := [] }

/-- `LoadConfiguredPlugins()`: returns immediately when `isInitialized` is
set (the code never sets it, so this fast path is dead); otherwise runs the
loading pass under `call_once`, which executes the pass only if it has not
executed before. -/
def loadConfiguredPlugins (env : String → ModuleOutcome) (configuredFilenames : List String)
    (s : GlobalState) : GlobalState :=
  if s.isInitialized then s
  else if s.onceDone then s
  else
    let (r1, es) := loadAll env configuredFilenames s.registry
    { registry := r1, isInitialized := s.isInitialized, onceDone := true, log := s.log ++ es }

/-- `GetPhysicalControllerBackendInterface(name)`: a case-insensitive lookup
in the physical-controller-backend name table, returning the stored interface
pointer or the null sentinel (`none`). Reads the registry and returns it
untouched alongside the result. -/
def getPhysicalControllerBackendInterface (r : RegistryState) (name : String) :
    RegistryState × Option IPlugin :=
  (r, mapFind (tableAt r EPluginType.PhysicalControllerBackend.toIndex) name)

/-- The registry states reachable in a process: the initial state followed by
any sequence of `LoadSinglePlugin` executions (the only writer). -/
inductive ReachableRegistry : RegistryState → Prop where
  | init : ReachableRegistry initialRegistry
  | step (env : String → ModuleOutcome) (f : String) (r : RegistryState) :
      ReachableRegistry r → ReachableRegistry (loadSinglePlugin env f r).1

/-- Typing invariant of the registry: every interface stored in the name
table for a numeric plugin type declares exactly that type. -/
def TypedTables (r : RegistryState) : Prop :=
  ∀ t : Nat, ∀ kv ∈ tableAt r t, kv.2.pluginType = t

/-! ## Concrete fixtures used to instantiate the theorems -/

/-- Concrete snapshot from the spec's example: button word 0x0C01, triggers
{10, 20}, sticks {100, -200, 300, -400}. -/
def exampleXInputState : XINPUT_STATE :=
  { dwPacketNumber := 0,
    Gamepad := { wButtons := 0x0C01, bLeftTrigger := 10, bRightTrigger := 20,
                 sThumbLX := 100, sThumbLY := -200, sThumbRX := 300, sThumbRY := -400 } }

/-- A backend plugin interface named "Foo". -/
def pluginFoo : IPlugin :=
  { pluginType := 0, pluginName := "Foo", ptrId := 1 }

/-- A second backend plugin interface whose name collides with `pluginFoo`
under case-insensitive comparison. -/
def pluginFooLower : IPlugin :=
  { pluginType := 0, pluginName := "foo", ptrId := 2 }

/-- A registry whose backend table holds exactly the "Foo" plugin. -/
def registryWithFoo : RegistryState :=
  { tables := [[("Foo", pluginFoo)]] }

/-- A module environment where every filename loads a module offering the
"Foo" plugin, except three designated failing filenames: "bad" fails to load,
"mec" lacks the count entry point, "mei" lacks the get-interface entry
point. -/
def exampleModuleEnv (filename : String) : ModuleOutcome :=
  if filename = "bad" then .loadFailure
  else if filename = "mec" then .missingGetCount
  else if filename = "mei" then .missingGetInterface
  else .loaded [some pluginFoo]

/-! ## Substring-search characterization lemmas -/

/-- Characterizes `listStartsWith`: the pattern starts the string exactly when
the string splits as the pattern followed by a remainder. -/
theorem listStartsWith_iff (p s : List Char) :
    listStartsWith s p = true ↔ ∃ rest, s = p ++ rest := by
  induction p generalizing s with
  | nil => simp [listStartsWith]
  | cons q ps ih =>
    cases s with
    | nil => simp [listStartsWith]
    | cons c cs =>
      simp only [listStartsWith, Bool.and_eq_true, beq_iff_eq, ih, List.cons_append]
      constructor
      · rintro ⟨rfl, rest, rfl⟩
        exact ⟨rest, rfl⟩
      · rintro ⟨rest, h⟩
        injection h with h1 h2
        exact ⟨h1, rest, h2⟩

/-- Characterizes `listContainsSub` as contiguous occurrence anywhere in the
string. -/
theorem listContainsSub_iff (p s : List Char) :
    listContainsSub s p = true ↔ OccursIn p s := by
  induction s with
  | nil =>
    cases p with
    | nil => exact iff_of_true rfl ⟨[], [], rfl⟩
    | cons q ps =>
      simp only [listContainsSub, listStartsWith, OccursIn]
      constructor
      · intro h
        cases h
      · rintro ⟨l1, l2, h⟩
        simp at h
  | cons c cs ih =>
    simp only [listContainsSub, Bool.or_eq_true, listStartsWith_iff, ih, OccursIn]
    constructor
    · rintro (⟨rest, h⟩ | ⟨l1, l2, rfl⟩)
      · exact ⟨[], rest, by simpa using h⟩
      · exact ⟨c :: l1, l2, rfl⟩
    · rintro ⟨l1, l2, h⟩
      cases l1 with
      | nil =>
        exact Or.inl ⟨l2, by simpa using h⟩
      | cons x l1 =>
        injection h with h1 h2
        exact Or.inr ⟨l1, l2, h2⟩

/-! ## Claim theorems for the reference XInput backend -/

/-- Bit pattern of the unused-button mask: within the 16-bit button range it
keeps exactly the positions other than 10 (Guide) and 11 (Share). -/
theorem kUnusedButtonMask_testBit :
    ∀ i, i < 16 → kUnusedButtonMask.testBit i = (decide (i ≠ 10) && decide (i ≠ 11)) := by
  decide

/-- C1: when the vendor call succeeds, the returned Physical State has status
Ok, sticks and triggers copied verbatim, and a button bit-set equal to the
vendor word with bit positions 10 and 11 forced to zero; on
device-not-connected the status is NotConnected with all other fields zero;
on any other vendor result the status is Error with all other fields zero. -/
theorem readInputState_statusMapping (res : Nat) (st : XINPUT_STATE) :
    (res = ERROR_SUCCESS →
      (readInputState res st).deviceStatus = EPhysicalDeviceStatus.Ok ∧
      (readInputState res st).stick =
        [st.Gamepad.sThumbLX, st.Gamepad.sThumbLY, st.Gamepad.sThumbRX, st.Gamepad.sThumbRY] ∧
      (readInputState res st).trigger = [st.Gamepad.bLeftTrigger, st.Gamepad.bRightTrigger] ∧
      (∀ i, i < 16 → (readInputState res st).button.testBit i =
        (st.Gamepad.wButtons.testBit i && decide (i ≠ 10) && decide (i ≠ 11)))) ∧
    (res = ERROR_DEVICE_NOT_CONNECTED →
      readInputState res st =
        { deviceStatus := EPhysicalDeviceStatus.NotConnected,
          stick := [0, 0, 0, 0], trigger := [0, 0], button := 0 }) ∧
    (res ≠ ERROR_SUCCESS → res ≠ ERROR_DEVICE_NOT_CONNECTED →
      readInputState res st =
        { deviceStatus := EPhysicalDeviceStatus.Error,
          stick := [0, 0, 0, 0], trigger := [0, 0], button := 0 }) := by
  refine ⟨?_, ?_, ?_⟩
  · intro h
    subst h
    refine ⟨by simp [readInputState], by simp [readInputState], by simp [readInputState], ?_⟩
    intro i hi
    have hb : (readInputState ERROR_SUCCESS st).button =
        st.Gamepad.wButtons &&& kUnusedButtonMask := by
      simp [readInputState]
    rw [hb, Nat.testBit_land, kUnusedButtonMask_testBit i hi, Bool.and_assoc]
  · intro h
    subst h
    simp [readInputState, ERROR_SUCCESS, ERROR_DEVICE_NOT_CONNECTED]
  · intro h1 h2
    unfold readInputState
    rw [if_neg h1, if_neg h2]

/-- Witness for C1 at the spec's example input: success yields status Ok with
the DpadUp bit surviving, and the not-connected result zeroes the state. -/
theorem readInputState_statusMapping_witness :
    (readInputState 0 exampleXInputState).deviceStatus = EPhysicalDeviceStatus.Ok ∧
    (readInputState 0 exampleXInputState).button.testBit 0 =
      (Nat.testBit 0x0C01 0 && decide ((0 : Nat) ≠ 10) && decide ((0 : Nat) ≠ 11)) ∧
    readInputState 1167 exampleXInputState =
      { deviceStatus := EPhysicalDeviceStatus.NotConnected,
        stick := [0, 0, 0, 0], trigger := [0, 0], button := 0 } :=
  ⟨((readInputState_statusMapping 0 exampleXInputState).1 rfl).1,
   ((readInputState_statusMapping 0 exampleXInputState).1 rfl).2.2.2 0 (by decide),
   (readInputState_statusMapping 1167 exampleXInputState).2.1 rfl⟩

/-- Counterexample for C4: the identity string "&Ig_" contains the marker
under case-insensitive comparison, yet the backend's identity test rejects
it — the code's search is not case-insensitive. -/
theorem supportsController_not_caseInsensitive :
    supportsControllerByGuidAndPath "&Ig_" = false ∧
      containsMarkerCaseInsensitive "&Ig_" = true := by
  decide

/-- C4 as amended: the identity test claims a string exactly when it contains
the all-uppercase marker "&IG_" or the all-lowercase marker "&ig_" as a
case-sensitive contiguous substring. -/
theorem supportsController_marker_occurrence (s : String) :
    supportsControllerByGuidAndPath s = true ↔
      (OccursIn "&IG_".data s.data ∨ OccursIn "&ig_".data s.data) := by
  unfold supportsControllerByGuidAndPath
  rw [Bool.or_eq_true, listContainsSub_iff, listContainsSub_iff]

/-- Witness for the amended C4 at a concrete identity string containing the
all-uppercase marker. -/
theorem supportsController_marker_occurrence_witness :
    supportsControllerByGuidAndPath "a&IG_b" = true :=
  (supportsController_marker_occurrence "a&IG_b").mpr
    (Or.inl ⟨['a'], ['b'], by decide⟩)

/-- C8: starting from the all-false capabilities value, setting one button
index through the indexing operator and reading it back yields true, while
every other index of every one of the four capability sets still reads
false. -/
theorem capabilities_setButton_roundTrip (b : EPhysicalButton) :
    (emptyCapabilities.setButton b true).getButton b = true ∧
    (∀ b2 : EPhysicalButton, b2 ≠ b →
      (emptyCapabilities.setButton b true).getButton b2 = false) ∧
    (∀ s : EPhysicalStick, (emptyCapabilities.setButton b true).getStick s = false) ∧
    (∀ t : EPhysicalTrigger, (emptyCapabilities.setButton b true).getTrigger t = false) ∧
    (∀ a : EForceFeedbackActuator,
      (emptyCapabilities.setButton b true).getActuator a = false) := by
  cases b <;> decide

/-- Witness for C8 at button bit index 2 (DpadLeft), per the spec's example:
the set bit reads true and a different index reads false. -/
theorem capabilities_setButton_roundTrip_witness :
    (emptyCapabilities.setButton EPhysicalButton.DpadLeft true).getButton
      EPhysicalButton.DpadLeft = true ∧
    (emptyCapabilities.setButton EPhysicalButton.DpadLeft true).getButton
      EPhysicalButton.DpadUp = false :=
  ⟨(capabilities_setButton_roundTrip EPhysicalButton.DpadLeft).1,
   (capabilities_setButton_roundTrip EPhysicalButton.DpadLeft).2.1
     EPhysicalButton.DpadUp (by decide)⟩

/-- C10: for force-feedback states agreeing on the two motor magnitudes, the
backend's write issues the identical vendor call and returns the identical
result, whatever the two impulse-trigger magnitudes are. -/
theorem writeForceFeedbackState_ignoresImpulseTriggers
    (xinputSetState : Nat → XINPUT_VIBRATION → Nat) (idx : Nat)
    (s1 s2 : SForceFeedbackState)
    (hL : s1.leftMotor = s2.leftMotor) (hR : s1.rightMotor = s2.rightMotor) :
    writeForceFeedbackState xinputSetState idx s1 =
      writeForceFeedbackState xinputSetState idx s2 := by
  unfold writeForceFeedbackState
  rw [hL, hR]

/-- Witness for C10: two states with equal motor magnitudes but different
impulse-trigger magnitudes produce identical observable behaviour. -/
theorem writeForceFeedbackState_ignoresImpulseTriggers_witness :
    writeForceFeedbackState (fun _ _ => 0) 0
        { leftMotor := 100, rightMotor := 200,
          leftImpulseTrigger := 300, rightImpulseTrigger := 400 } =
      writeForceFeedbackState (fun _ _ => 0) 0
        { leftMotor := 100, rightMotor := 200,
          leftImpulseTrigger := 0, rightImpulseTrigger := 55 } :=
  writeForceFeedbackState_ignoresImpulseTriggers (fun _ _ => 0) 0 _ _ rfl rfl

/-! ## Claim theorems for the plugin registry -/

/-- A successful lookup implies the case-insensitive membership test holds. -/
theorem mapContains_of_mapFind {m : TPluginNameToInterfaceMap} {name : String} {q : IPlugin}
    (h : mapFind m name = some q) : mapContains m name = true := by
  unfold mapFind at h
  obtain ⟨kv, hf, hq⟩ := Option.map_eq_some'.mp h
  have hp := List.find?_some hf
  unfold mapContains
  exact List.any_eq_true.mpr ⟨kv, List.mem_of_find?_eq_some hf, hp⟩

/-- C3: registering an interface under a name that collides case-insensitively
with an already-stored name is rejected: the map is returned unchanged with a
failure flag, the first registrant remains the stored mapping for that name,
and the table size does not grow. -/
theorem mapEmplace_collision_firstWins (m : TPluginNameToInterfaceMap) (name : String)
    (p q : IPlugin) (h : mapFind m name = some q) :
    mapEmplace m name p = (m, false) ∧
    mapFind (mapEmplace m name p).1 name = some q ∧
    (mapEmplace m name p).1.length = m.length := by
  have hc := mapContains_of_mapFind h
  simp [mapEmplace, hc, h]

/-- Witness for C3: after registering "Foo", registering "foo" is rejected,
the "Foo" interface stays the stored mapping, and the table size stays 1. -/
theorem mapEmplace_collision_firstWins_witness :
    mapEmplace [("Foo", pluginFoo)] "foo" pluginFooLower = ([("Foo", pluginFoo)], false) ∧
    mapFind (mapEmplace [("Foo", pluginFoo)] "foo" pluginFooLower).1 "foo" = some pluginFoo ∧
    (mapEmplace [("Foo", pluginFoo)] "foo" pluginFooLower).1.length =
      [("Foo", pluginFoo)].length :=
  mapEmplace_collision_firstWins [("Foo", pluginFoo)] "foo" pluginFooLower pluginFoo (by decide)

/-- C5: the backend lookup leaves the registry untouched, returns the
not-found sentinel on an empty registry and whenever no stored name is
case-insensitively equal to the requested one, and returns the stored
interface pointer for a registered name. -/
theorem getBackendInterface_lookup (r : RegistryState) (name : String) :
    (getPhysicalControllerBackendInterface r name).1 = r ∧
    getPhysicalControllerBackendInterface initialRegistry name = (initialRegistry, none) ∧
    ((∀ kv ∈ tableAt r EPluginType.PhysicalControllerBackend.toIndex,
        caseFold kv.1 ≠ caseFold name) →
      (getPhysicalControllerBackendInterface r name).2 = none) ∧
    (∀ kv ∈ tableAt r EPluginType.PhysicalControllerBackend.toIndex,
      caseFold kv.1 = caseFold name →
      (∀ kv2 ∈ tableAt r EPluginType.PhysicalControllerBackend.toIndex,
        caseFold kv2.1 = caseFold name → kv2 = kv) →
      (getPhysicalControllerBackendInterface r name).2 = some kv.2) := by
  refine ⟨rfl, rfl, ?_, ?_⟩
  · intro h
    unfold getPhysicalControllerBackendInterface mapFind
    have hnone : (tableAt r EPluginType.PhysicalControllerBackend.toIndex).find?
        (fun kv => caseFold kv.1 == caseFold name) = none :=
      List.find?_eq_none.mpr (fun kv hkv => by simpa using h kv hkv)
    rw [hnone]
    rfl
  · intro kv hkv heq huniq
    unfold getPhysicalControllerBackendInterface mapFind
    have hsome : ((tableAt r EPluginType.PhysicalControllerBackend.toIndex).find?
        (fun kv => caseFold kv.1 == caseFold name)).isSome = true :=
      List.find?_isSome.mpr ⟨kv, hkv, by simpa using heq⟩
    obtain ⟨kv1, hf⟩ := Option.isSome_iff_exists.mp hsome
    have hkv1 : kv1 = kv :=
      huniq kv1 (List.mem_of_find?_eq_some hf) (by simpa using List.find?_some hf)
    rw [hf, hkv1]
    rfl

/-- Witness for C5: on a registry holding only "Foo", looking up "bar" yields
the not-found sentinel and looking up "fOO" yields the stored interface. -/
theorem getBackendInterface_lookup_witness :
    (getPhysicalControllerBackendInterface registryWithFoo "bar").2 = none ∧
    (getPhysicalControllerBackendInterface registryWithFoo "fOO").2 = some pluginFoo :=
  ⟨(getBackendInterface_lookup registryWithFoo "bar").2.2.1 (by decide),
   (getBackendInterface_lookup registryWithFoo "fOO").2.2.2 ("Foo", pluginFoo)
     (by decide) (by decide) (by decide)⟩

/-- One call to `LoadConfiguredPlugins` absorbs any further call: the state
after two calls equals the state after one. -/
theorem loadConfiguredPlugins_absorb (env : String → ModuleOutcome)
    (cfg : List String) (s : GlobalState) :
    loadConfiguredPlugins env cfg (loadConfiguredPlugins env cfg s) =
      loadConfiguredPlugins env cfg s := by
  cases hI : s.isInitialized with
  | true => simp [loadConfiguredPlugins, hI]
  | false =>
    cases hO : s.onceDone with
    | true => simp [loadConfiguredPlugins, hI, hO]
    | false => simp [loadConfiguredPlugins, hI, hO]

/-- C2: invoking `LoadConfiguredPlugins` any positive number of times leaves
the process state exactly as one invocation does, and the loading work
performed — the entire per-module log — is that of exactly one pass over the
configured filenames. -/
theorem loadConfiguredPlugins_idempotent (env : String → ModuleOutcome)
    (cfg : List String) (n : Nat) (h : 1 ≤ n) :
    (loadConfiguredPlugins env cfg)^[n] initialGlobalState =
      loadConfiguredPlugins env cfg initialGlobalState ∧
    ((loadConfiguredPlugins env cfg)^[n] initialGlobalState).log =
      (loadAll env cfg initialRegistry).2 := by
  obtain ⟨m, rfl⟩ : ∃ m, n = m + 1 := ⟨n - 1, (Nat.succ_pred_eq_of_pos h).symm⟩
  clear h
  have hiter : (loadConfiguredPlugins env cfg)^[m + 1] initialGlobalState =
      loadConfiguredPlugins env cfg initialGlobalState := by
    induction m with
    | zero => simp
    | succ k ih =>
      rw [Function.iterate_succ_apply', ih, loadConfiguredPlugins_absorb]
  refine ⟨hiter, ?_⟩
  rw [hiter]
  simp [loadConfiguredPlugins, initialGlobalState]

/-- Witness for C2: with a concrete environment and a one-module
configuration, three calls leave the same state as one call, whose log is one
loading pass. -/
theorem loadConfiguredPlugins_idempotent_witness :
    (loadConfiguredPlugins exampleModuleEnv ["plug"])^[3] initialGlobalState =
      loadConfiguredPlugins exampleModuleEnv ["plug"] initialGlobalState ∧
    ((loadConfiguredPlugins exampleModuleEnv ["plug"])^[3] initialGlobalState).log =
      (loadAll exampleModuleEnv ["plug"] initialRegistry).2 :=
  loadConfiguredPlugins_idempotent exampleModuleEnv ["plug"] 3 (by decide)

/-- The registry component of one enumeration step does not depend on the
index, which only feeds the log. -/
theorem processInterface_fst_index (r : RegistryState) (i j : Nat) (opt : Option IPlugin) :
    (processInterface r i opt).1 = (processInterface r j opt).1 := by
  cases opt with
  | none => rfl
  | some p =>
    simp only [processInterface]
    by_cases hp : kPluginTypeCount ≤ p.pluginType
    · rw [if_pos hp, if_pos hp]
    · rw [if_neg hp, if_neg hp]

/-- The registry component of the enumeration loop does not depend on the
starting index. -/
theorem processAll_fst_index (l : List (Option IPlugin)) :
    ∀ (r : RegistryState) (i j : Nat), (processAll r i l).1 = (processAll r j l).1 := by
  induction l with
  | nil => intro r i j; rfl
  | cons x xs ih =>
    intro r i j
    show (processAll (processInterface r i x).1 (i + 1) xs).1 =
      (processAll (processInterface r j x).1 (j + 1) xs).1
    rw [processInterface_fst_index r i j x, ih _ (i + 1) (j + 1)]

/-- A null interface result, or one declaring an unrecognized plugin-type tag,
leaves the registry untouched. -/
theorem processInterface_skip (r : RegistryState) (i : Nat) (opt : Option IPlugin)
    (h : opt = none ∨ ∃ p, opt = some p ∧ kPluginTypeCount ≤ p.pluginType) :
    (processInterface r i opt).1 = r := by
  rcases h with rfl | ⟨p, rfl, hp⟩
  · rfl
  · simp only [processInterface]
    rw [if_pos hp]

/-- C7: during enumeration of a loaded module, a null result at an index, and
a non-null result whose declared plugin-type tag is at or beyond the Count
sentinel, are skipped: the step leaves the registry unchanged, and the whole
enumeration produces the same registry as if that index's result were absent,
continuing with the remaining indices. -/
theorem processAll_skips_rejected (r : RegistryState) (i j : Nat) (opt : Option IPlugin)
    (l1 l2 : List (Option IPlugin))
    (h : opt = none ∨ ∃ p, opt = some p ∧ kPluginTypeCount ≤ p.pluginType) :
    (processInterface r i opt).1 = r ∧
    (processAll r j (l1 ++ opt :: l2)).1 = (processAll r j (l1 ++ l2)).1 := by
  refine ⟨processInterface_skip r i opt h, ?_⟩
  induction l1 generalizing r j with
  | nil =>
    show (processAll (processInterface r j opt).1 (j + 1) l2).1 = (processAll r j l2).1
    rw [processInterface_skip r j opt h, processAll_fst_index l2 r (j + 1) j]
  | cons x xs ih =>
    show (processAll (processInterface r j x).1 (j + 1) (xs ++ opt :: l2)).1 =
      (processAll (processInterface r j x).1 (j + 1) (xs ++ l2)).1
    exact ih _ _

/-- Witness for C7: a null result and an interface with unrecognized type tag
5 contribute nothing to the registry built from a concrete enumeration. -/
theorem processAll_skips_rejected_witness :
    (processInterface initialRegistry 0
        (some { pluginType := 5, pluginName := "Odd", ptrId := 9 })).1 = initialRegistry ∧
    (processAll initialRegistry 0
        ([some pluginFoo] ++
          some { pluginType := 5, pluginName := "Odd", ptrId := 9 } :: [none])).1 =
      (processAll initialRegistry 0 ([some pluginFoo] ++ [none])).1 :=
  processAll_skips_rejected initialRegistry 0 0
    (some { pluginType := 5, pluginName := "Odd", ptrId := 9 }) [some pluginFoo] [none]
    (Or.inr ⟨{ pluginType := 5, pluginName := "Odd", ptrId := 9 }, rfl, by decide⟩)

/-- The loading pass is compositional: processing a concatenated filename
list threads the registry through the first part and concatenates the logs. -/
theorem loadAll_append (env : String → ModuleOutcome) (a b : List String) (r : RegistryState) :
    loadAll env (a ++ b) r =
      ((loadAll env b (loadAll env a r).1).1,
       (loadAll env a r).2 ++ (loadAll env b (loadAll env a r).1).2) := by
  induction a generalizing r with
  | nil => simp [loadAll]
  | cons f fs ih => simp [loadAll, ih, List.append_assoc]

/-- C6: a filename whose module fails to load, or lacks a required entry
point, is skipped: it contributes zero registry entries — the final registry
equals that of the configured sequence with the filename absent — while all
other filenames are processed exactly as if it were absent; the failure is
logged once (with the module unloaded in the missing-entry-point cases) and
is never retried. -/
theorem loadAll_skips_failing_module (env : String → ModuleOutcome) (f : String)
    (l1 l2 : List String) (r : RegistryState) :
    (env f = ModuleOutcome.loadFailure →
      loadAll env (l1 ++ f :: l2) r =
        ((loadAll env (l1 ++ l2) r).1,
         (loadAll env l1 r).2 ++ [ELogEvent.moduleLoadFailure f] ++
           (loadAll env l2 (loadAll env l1 r).1).2)) ∧
    (env f = ModuleOutcome.missingGetCount →
      loadAll env (l1 ++ f :: l2) r =
        ((loadAll env (l1 ++ l2) r).1,
         (loadAll env l1 r).2 ++
           [ELogEvent.missingEntryPoint f, ELogEvent.moduleUnloaded f] ++
           (loadAll env l2 (loadAll env l1 r).1).2)) ∧
    (env f = ModuleOutcome.missingGetInterface →
      loadAll env (l1 ++ f :: l2) r =
        ((loadAll env (l1 ++ l2) r).1,
         (loadAll env l1 r).2 ++
           [ELogEvent.missingEntryPoint f, ELogEvent.moduleUnloaded f] ++
           (loadAll env l2 (loadAll env l1 r).1).2)) := by
  refine ⟨?_, ?_, ?_⟩ <;> intro henv <;>
    simp [loadAll_append, loadAll, loadSinglePlugin, henv, List.append_assoc]

/-- Witness for C6: in a three-filename configuration whose middle module
fails to load, the first and third are processed as if the second were absent
and the failure contributes exactly one load-failure log outcome. -/
theorem loadAll_skips_failing_module_witness :
    loadAll exampleModuleEnv (["good1"] ++ "bad" :: ["good2"]) initialRegistry =
      ((loadAll exampleModuleEnv (["good1"] ++ ["good2"]) initialRegistry).1,
       (loadAll exampleModuleEnv ["good1"] initialRegistry).2 ++
         [ELogEvent.moduleLoadFailure "bad"] ++
         (loadAll exampleModuleEnv ["good2"]
           (loadAll exampleModuleEnv ["good1"] initialRegistry).1).2) :=
  (loadAll_skips_failing_module exampleModuleEnv "bad" ["good1"] ["good2"]
    initialRegistry).1 (by decide)

/-- The initial registry satisfies the typing invariant vacuously: every
per-type table is empty. -/
theorem typedTables_initial : TypedTables initialRegistry := by
  intro t kv hkv
  have hempty : tableAt initialRegistry t = [] := by
    cases t with
    | zero => rfl
    | succ n => rfl
  rw [hempty] at hkv
  cases hkv

/-- Registration preserves the typing invariant: an interface is filed only
into the table selected by its own declared type. -/
theorem typedTables_register (r : RegistryState) (p : IPlugin) (h : TypedTables r) :
    TypedTables (registerPlugin r p).1 := by
  unfold registerPlugin
  by_cases hc : mapContains (tableAt r p.pluginType) p.pluginName = true
  · simpa [hc] using h
  · simp only [hc, if_false, Bool.false_eq_true]
    intro t kv hkv
    unfold tableAt at hkv
    rw [List.get?_eq_getElem?, List.getElem?_set] at hkv
    by_cases ht : p.pluginType = t
    · subst ht
      rw [if_pos rfl] at hkv
      by_cases hlen : p.pluginType < r.tables.length
      · rw [if_pos hlen] at hkv
        simp only [Option.getD_some] at hkv
        rcases List.mem_append.mp hkv with hold | hnew
        · exact h p.pluginType kv hold
        · rcases List.mem_singleton.mp hnew with rfl
          rfl
      · rw [if_neg hlen] at hkv
        simp only [Option.getD_none] at hkv
        cases hkv
    · rw [if_neg ht] at hkv
      exact h t kv (by simpa [tableAt, List.get?_eq_getElem?] using hkv)

/-- One enumeration step preserves the typing invariant. -/
theorem typedTables_processInterface (r : RegistryState) (i : Nat) (opt : Option IPlugin)
    (h : TypedTables r) : TypedTables (processInterface r i opt).1 := by
  cases opt with
  | none => exact h
  | some p =>
    simp only [processInterface]
    by_cases hp : kPluginTypeCount ≤ p.pluginType
    · simpa [hp] using h
    · simpa [hp] using typedTables_register r p h

/-- The enumeration loop preserves the typing invariant. -/
theorem typedTables_processAll (l : List (Option IPlugin)) :
    ∀ (r : RegistryState) (i : Nat), TypedTables r → TypedTables (processAll r i l).1 := by
  induction l with
  | nil => intro r i h; exact h
  | cons x xs ih =>
    intro r i h
    exact ih _ _ (typedTables_processInterface r i x h)

/-- Loading one module preserves the typing invariant. -/
theorem typedTables_loadSinglePlugin (env : String → ModuleOutcome) (f : String)
    (r : RegistryState) (h : TypedTables r) : TypedTables (loadSinglePlugin env f r).1 := by
  unfold loadSinglePlugin
  cases env f with
  | loadFailure => exact h
  | missingGetCount => exact h
  | missingGetInterface => exact h
  | loaded interfaces => exact typedTables_processAll interfaces r 0 h

/-- C9: in every reachable registry state, each interface stored in a type's
name table declares exactly that plugin type, and consequently every non-null
pointer returned by the backend lookup refers to a plugin whose declared type
is PhysicalControllerBackend, making the backend downcast type-correct. -/
theorem reachableRegistry_typeConsistent (r : RegistryState) (h : ReachableRegistry r) :
    TypedTables r ∧
    (∀ (name : String) (p : IPlugin),
      (getPhysicalControllerBackendInterface r name).2 = some p →
      p.pluginType = EPluginType.PhysicalControllerBackend.toIndex) := by
  have hT : TypedTables r := by
    induction h with
    | init => exact typedTables_initial
    | step env f r hr ih => exact typedTables_loadSinglePlugin env f r ih
  refine ⟨hT, ?_⟩
  intro name p hfind
  unfold getPhysicalControllerBackendInterface mapFind at hfind
  obtain ⟨kv, hf, hkvp⟩ := Option.map_eq_some'.mp hfind
  exact hkvp ▸ hT _ kv (List.mem_of_find?_eq_some hf)

/-- Witness for C9: in the registry reached by loading one concrete module,
the interface found under a case-insensitive name declares the
PhysicalControllerBackend type. -/
theorem reachableRegistry_typeConsistent_witness :
    pluginFoo.pluginType = EPluginType.PhysicalControllerBackend.toIndex :=
  (reachableRegistry_typeConsistent
      (loadSinglePlugin exampleModuleEnv "plug" initialRegistry).1
      (ReachableRegistry.step exampleModuleEnv "plug" initialRegistry
        ReachableRegistry.init)).2 "fOO" pluginFoo (by decide)

end Xidi
